import Mathlib

/-!
Verification of the Kachingko backend verification/OTP subsystem.

The JavaScript sources (Sequelize Account model, SemaphoreService and
BrevoService OTP stores, AccountController, DeduplicationMiddleware) are
shallowly embedded below: JS Maps become association lists with unique keys,
Date values become integer epoch milliseconds, thrown errors become an
explicit error type, and awaited saves become explicit state passing.
-/

namespace Kachingko

/-- A JS Map with string keys, modelled as an association list holding at most
one binding per key. -/
abbrev StrMap (α : Type) : Type := List (String × α)

/-- Map.delete: remove the binding for the key. -/
def mapDel {α : Type} (m : StrMap α) (key : String) : StrMap α :=
  m.filter (fun kv => kv.1 != key)

/-- Map.set: store the binding for the key (JS Map keys are unique, so any
previous binding for the key is dropped). -/
def mapSet {α : Type} (m : StrMap α) (key : String) (value : α) : StrMap α :=
  (key, value) :: mapDel m key

/-- Map.get: the binding for the key, if any. -/
def mapGet {α : Type} : StrMap α → String → Option α
  | [], _ => none
  | (k, v) :: rest, key => if k = key then some v else mapGet rest key

theorem mapGet_del_self {α : Type} (m : StrMap α) (key : String) :
    mapGet (mapDel m key) key = none := by
  induction m with
  | nil => rfl
  | cons kv rest ih =>
    by_cases h : kv.1 = key
    · simpa [mapDel, h] using ih
    · simpa [mapDel, mapGet, h] using ih

theorem mapGet_del_ne {α : Type} (m : StrMap α) (key p : String) (h : p ≠ key) :
    mapGet (mapDel m key) p = mapGet m p := by
  induction m with
  | nil => rfl
  | cons kv rest ih =>
    by_cases hk : kv.1 = key
    · have hne : ¬key = p := fun hc => h hc.symm
      simp only [mapDel, List.filter_cons, hk, bne_self_eq_false, Bool.false_eq_true,
        if_false, mapGet, if_neg hne]
      exact ih
    · have hb : (kv.1 != key) = true := by simp [hk]
      simp only [mapDel, List.filter_cons, hb, if_true, mapGet]
      by_cases hp : kv.1 = p
      · simp [hp]
      · simp only [hp, if_neg hp]
        exact ih

theorem mapGet_set_self {α : Type} (m : StrMap α) (key : String) (value : α) :
    mapGet (mapSet m key value) key = some value := by
  simp [mapSet, mapGet]

theorem mapGet_set_ne {α : Type} (m : StrMap α) (key p : String) (value : α)
    (h : p ≠ key) : mapGet (mapSet m key value) p = mapGet m p := by
  simp [mapSet, mapGet, Ne.symm h, mapGet_del_ne m key p h]

theorem mapGet_set_cases {α : Type} (m : StrMap α) (key p : String) (value a : α)
    (h : mapGet (mapSet m key value) p = some a) :
    (p = key ∧ a = value) ∨ mapGet m p = some a := by
  by_cases hp : p = key
  · subst hp
    rw [mapGet_set_self] at h
    exact Or.inl ⟨rfl, (Option.some.injEq _ _).mp h.symm⟩
  · exact Or.inr (by rw [mapGet_set_ne m key p value hp] at h; exact h)

/-! ### JS string primitives, modelled over the character list -/

/-- The JS String.prototype.trim: strip leading and trailing whitespace. -/
def jsTrim (s : String) : String :=
  ⟨((s.data.dropWhile Char.isWhitespace).reverse.dropWhile Char.isWhitespace).reverse⟩

/-- The JS String.prototype.toLowerCase, on the character range the sources
use. -/
def jsToLower (s : String) : String :=
  ⟨s.data.map Char.toLower⟩

/-- String.prototype.startsWith, on character lists. -/
def startsWithChars : List Char → List Char → Bool
  | _, [] => true
  | [], _ :: _ => false
  | c :: cs, p :: ps => c == p && startsWithChars cs ps

/-! ### OTP entries (SemaphoreService.otpCodes / BrevoService.emailCodes) -/

/-- One stored one-time code: the value kept in the per-channel in-memory Map. -/
structure OTPEntry where
  code : String
  expiresAt : Int
  attempts : Nat
  createdAt : Int
deriving DecidableEq, Repr

/-- The status field of the verifyOTP / verifyEmailOTP result object. -/
inductive OTPStatus
  | approved
  | expired
  | failed
deriving DecidableEq, Repr

/-- The message field of the verifyOTP / verifyEmailOTP result object,
abstracted from the literal English strings. -/
inductive OTPMessage
  | noCodeFound
  | codeExpired
  | tooManyFailedAttempts
  | verifiedOk
  | invalidCode
deriving DecidableEq, Repr

/-- Result of an OTP verification call: the returned tagged status plus the
mutated code Map. -/
structure VerifyOutcome where
  status : OTPStatus
  message : OTPMessage
  codes : StrMap OTPEntry
deriving DecidableEq, Repr

/-- Errors thrown by the embedded code, abstracted from the message strings. -/
inductive JsError
  | validationFailed
  | accountNotFound
  | cooldownActive (secondsLeft : Int)
  | emailCooldownActive (secondsLeft : Int)
  | noEmailOnAccount
  | emailAlreadyVerified
  | tooManyEmailAttempts
  | invalidEmailFormat
  | emailInUse
  | sameAsCurrentEmail
  | wrongEmailChangeStep
  | invalidSmsCode
  | invalidEmailCode
  | emailCodeExpired
  | emailChangeStateError
  | accountExists
deriving DecidableEq, Repr

/-- BaseService validation rule used by SemaphoreService.verifyOTP:
phoneNumber is required; code is required with minLength 4 and maxLength 8. -/
def validSmsVerifyInput (phoneNumber code : String) : Bool :=
  phoneNumber != "" && code != "" && decide (4 ≤ code.length) && decide (code.length ≤ 8)

/-- The email regular expression used across the sources, which requires a
nonempty run of non-whitespace non-at characters, an at sign, and a domain part
containing an inner dot with nonempty segments on both sides. -/
def emailPatternOk (s : String) : Bool :=
  let cs := s.toList
  let pre := cs.takeWhile (fun c => c != '@')
  let post := cs.drop (pre.length + 1)
  (cs.all fun c => !c.isWhitespace) &&
  !pre.isEmpty &&
  decide (pre.length < cs.length) &&
  post.all (fun c => c != '@') &&
  ((post.drop 1).dropLast.contains '.')

/-- BaseService validation rule used by BrevoService.verifyEmailOTP:
email is required and must match the email pattern; code is required with
minLength 6 and maxLength 6. -/
def validEmailVerifyInput (email code : String) : Bool :=
  email != "" && emailPatternOk email && code != "" && decide (code.length = 6)

namespace SemaphoreService

/-- SemaphoreService._storeOTPCode: store the provider-generated code with a
five-minute TTL and a fresh attempt counter, overwriting any previous entry. -/
def storeOTPCode (otpCodes : StrMap OTPEntry) (phoneNumber code : String) (now : Int) :
    StrMap OTPEntry :=
  mapSet otpCodes phoneNumber
    { code := code, expiresAt := now + 5 * 60 * 1000, attempts := 0, createdAt := now }

/-- SemaphoreService._removeOTPCode. -/
def removeOTPCode (otpCodes : StrMap OTPEntry) (phoneNumber : String) : StrMap OTPEntry :=
  mapDel otpCodes phoneNumber

/-- SemaphoreService._isCodeExpired. -/
def isCodeExpired (data : OTPEntry) (currentTime : Int) : Bool :=
  currentTime > data.expiresAt

/-- SemaphoreService._hasExceededAttempts. -/
def hasExceededAttempts (data : OTPEntry) (maxAttempts : Nat) : Bool :=
  decide (maxAttempts ≤ data.attempts)

/-- SemaphoreService._isCodeValid: stored code compared to the trimmed input. -/
def isCodeValid (data : OTPEntry) (inputCode : String) : Bool :=
  data.code == jsTrim inputCode

/-- SemaphoreService._incrementAttempts: bump the attempt counter in place. -/
def incrementAttempts (otpCodes : StrMap OTPEntry) (phoneNumber : String) (data : OTPEntry) :
    StrMap OTPEntry :=
  mapSet otpCodes phoneNumber { data with attempts := data.attempts + 1 }

/-- SemaphoreService.verifyOTP: input validation, then the expiry, attempt and
equality checks in source order, each with its Map side effect. -/
def verifyOTP (otpCodes : StrMap OTPEntry) (phoneNumber code : String) (now : Int) :
    Except JsError VerifyOutcome :=
  if !(validSmsVerifyInput phoneNumber code) then .error .validationFailed
  else
    match mapGet otpCodes phoneNumber with
    | none => .ok ⟨.expired, .noCodeFound, otpCodes⟩
    | some storedData =>
      if isCodeExpired storedData now then
        .ok ⟨.expired, .codeExpired, removeOTPCode otpCodes phoneNumber⟩
      else if hasExceededAttempts storedData 3 then
        .ok ⟨.failed, .tooManyFailedAttempts, removeOTPCode otpCodes phoneNumber⟩
      else if isCodeValid storedData code then
        .ok ⟨.approved, .verifiedOk, removeOTPCode otpCodes phoneNumber⟩
      else
        .ok ⟨.failed, .invalidCode, incrementAttempts otpCodes phoneNumber storedData⟩

/-- Helper of the Semaphore phone regular expression: a subscriber part led by
8 or 9 followed by exactly nine digits. -/
def subscriberOk (cs : List Char) : Bool :=
  match cs with
  | c :: rest => (c == '8' || c == '9') && decide (rest.length = 9) && rest.all Char.isDigit
  | [] => false

/-- The Semaphore phone regular expression: an optional +63, 63 or 0 prefix
followed by the subscriber part, anchored on both sides. -/
def phonePatternOk (s : String) : Bool :=
  let cs := s.toList
  subscriberOk cs ||
  (match cs with
   | '+' :: '6' :: '3' :: rest => subscriberOk rest
   | _ => false) ||
  (match cs with
   | '6' :: '3' :: rest => subscriberOk rest
   | _ => false) ||
  (match cs with
   | '0' :: rest => subscriberOk rest
   | _ => false)

/-- Result object of a successful send: the recipient, from the result field
named to in source (the provider message id is external and omitted). -/
structure SendResult where
  recipient : String
deriving DecidableEq, Repr

/-- SemaphoreService.sendOTP: validate the phone, call the provider (external;
the code the provider generates is passed in as providerCode), and store the
returned code. -/
def sendOTP (otpCodes : StrMap OTPEntry) (phoneNumber providerCode : String) (now : Int) :
    StrMap OTPEntry × Except JsError SendResult :=
  if phoneNumber == "" || !phonePatternOk phoneNumber then (otpCodes, .error .validationFailed)
  else (storeOTPCode otpCodes phoneNumber providerCode now, .ok ⟨phoneNumber⟩)

end SemaphoreService

namespace BrevoService

/-- BrevoService._storeOTPCode (the expiry timestamp is computed by the caller). -/
def storeOTPCode (emailCodes : StrMap OTPEntry) (email code : String) (expiresAt now : Int) :
    StrMap OTPEntry :=
  mapSet emailCodes email
    { code := code, expiresAt := expiresAt, attempts := 0, createdAt := now }

/-- BrevoService._removeOTPCode. -/
def removeOTPCode (emailCodes : StrMap OTPEntry) (email : String) : StrMap OTPEntry :=
  mapDel emailCodes email

/-- BrevoService._isCodeExpired. -/
def isCodeExpired (data : OTPEntry) (currentTime : Int) : Bool :=
  currentTime > data.expiresAt

/-- BrevoService._hasExceededAttempts. -/
def hasExceededAttempts (data : OTPEntry) (maxAttempts : Nat) : Bool :=
  decide (maxAttempts ≤ data.attempts)

/-- BrevoService._isCodeValid: stored code compared to the trimmed input. -/
def isCodeValid (data : OTPEntry) (inputCode : String) : Bool :=
  data.code == jsTrim inputCode

/-- BrevoService._incrementAttempts. -/
def incrementAttempts (emailCodes : StrMap OTPEntry) (email : String) (data : OTPEntry) :
    StrMap OTPEntry :=
  mapSet emailCodes email { data with attempts := data.attempts + 1 }

/-- BrevoService.verifyEmailOTP: same check sequence as the SMS store, keyed by
email, with the email-specific input validation. -/
def verifyEmailOTP (emailCodes : StrMap OTPEntry) (email code : String) (now : Int) :
    Except JsError VerifyOutcome :=
  if !(validEmailVerifyInput email code) then .error .validationFailed
  else
    match mapGet emailCodes email with
    | none => .ok ⟨.expired, .noCodeFound, emailCodes⟩
    | some storedData =>
      if isCodeExpired storedData now then
        .ok ⟨.expired, .codeExpired, removeOTPCode emailCodes email⟩
      else if hasExceededAttempts storedData 3 then
        .ok ⟨.failed, .tooManyFailedAttempts, removeOTPCode emailCodes email⟩
      else if isCodeValid storedData code then
        .ok ⟨.approved, .verifiedOk, removeOTPCode emailCodes email⟩
      else
        .ok ⟨.failed, .invalidCode, incrementAttempts emailCodes email storedData⟩

/-- BrevoService.sendEmailOTP: the generated code (Math.random in source) is
passed in as genCode; the entry is stored before the SMTP send, whose address
validation may then throw. -/
def sendEmailOTP (emailCodes : StrMap OTPEntry) (email genCode : String) (now : Int) :
    StrMap OTPEntry × Except JsError SemaphoreService.SendResult :=
  let expiresAt := now + 5 * 60 * 1000
  let stored := storeOTPCode emailCodes email genCode expiresAt now
  if email == "" || !emailPatternOk email then (stored, .error .validationFailed)
  else (stored, .ok ⟨email⟩)

end BrevoService

/-! ### Math.ceil on integer millisecond quantities -/

/-- Math.ceil of the quotient num / den, written with Euclidean division; for a
positive denominator it agrees with the mathematical ceiling, see
mathCeilDiv_eq_ceil. -/
def mathCeilDiv (num den : Int) : Int :=
  (num + den - 1) / den

theorem mathCeilDiv_eq_ceil (num : Int) :
    mathCeilDiv num 1000 = ⌈(num : ℚ) / 1000⌉ := by
  have h1 : 1000 * mathCeilDiv num 1000 - 1000 < num := by unfold mathCeilDiv; omega
  have h2 : num ≤ 1000 * mathCeilDiv num 1000 := by unfold mathCeilDiv; omega
  symm
  rw [Int.ceil_eq_iff]
  constructor
  · rw [lt_div_iff₀ (by norm_num : (0 : ℚ) < 1000)]
    have hc : ((1000 * mathCeilDiv num 1000 - 1000 : Int) : ℚ) < ((num : Int) : ℚ) := by
      exact_mod_cast h1
    push_cast at hc ⊢
    linarith
  · rw [div_le_iff₀ (by norm_num : (0 : ℚ) < 1000)]
    have hc : ((num : Int) : ℚ) ≤ ((1000 * mathCeilDiv num 1000 : Int) : ℚ) := by
      exact_mod_cast h2
    push_cast at hc ⊢
    linarith

/-! ### The Account model -/

/-- The kycStatus column values. -/
inductive KycStatus
  | not_submitted
  | pending
  | approved
  | rejected
deriving DecidableEq, Repr

/-- The emailChangeVerificationStep column values. -/
inductive EmailChangeStep
  | none
  | sms_pending
  | email_pending
  | completed
deriving DecidableEq, Repr

/-- A persisted account row. Dates are epoch milliseconds; nullable columns are
options; id is the row identity used by the duplicate-email checks. -/
structure Account where
  id : Nat
  phoneNumber : String
  pin : String
  email : Option String
  pendingEmail : Option String
  smsVerified : Bool
  emailVerified : Bool
  fullyVerified : Bool
  verificationAttempts : Nat
  emailVerificationAttempts : Nat
  lastVerificationSent : Option Int
  lastEmailVerificationSent : Option Int
  emailChangeVerificationStep : EmailChangeStep
  kycStatus : KycStatus
  kycSubmittedAt : Option Int
deriving DecidableEq, Repr

/-- Account.normalizePhoneNumber: strip every non-digit and force a +63 prefix;
the null result for an empty input is modelled as none. -/
def normalizePhoneNumber (phoneNumber : String) : Option String :=
  if phoneNumber == "" then none
  else
    let cleaned := phoneNumber.data.filter Char.isDigit
    if startsWithChars cleaned ['0'] then some ⟨'+' :: '6' :: '3' :: cleaned.drop 1⟩
    else if startsWithChars cleaned ['6', '3'] && !startsWithChars cleaned ['+', '6', '3'] then
      some ⟨'+' :: cleaned⟩
    else if !startsWithChars cleaned ['+', '6', '3'] then some ⟨'+' :: '6' :: '3' :: cleaned⟩
    else some ⟨cleaned⟩

/-- The beforeUpdate hook Account._normalizePhoneNumberHook; a null normalized
number is modelled as the empty string. -/
def normalizePhoneNumberHook (a : Account) : Account :=
  { a with phoneNumber :=
      match normalizePhoneNumber a.phoneNumber with
      | some p => p
      | none => "" }

/-- The afterUpdate hook Account._updateFullyVerifiedStatus; prev carries the
previous data values of the row. -/
def updateFullyVerifiedStatus (prev cur : Account) : Account :=
  let wasFullyVerified := prev.fullyVerified
  let isNowFullyVerified := cur.smsVerified && cur.emailVerified
  if !wasFullyVerified && isNowFullyVerified then { cur with fullyVerified := true }
  else if wasFullyVerified && !isNowFullyVerified then { cur with fullyVerified := false }
  else cur

/-- account.save(): the instance with mutated fields (cur) is persisted through
the beforeUpdate and afterUpdate hooks; prev is the row as previously loaded. -/
def Account.save (prev cur : Account) : Account :=
  updateFullyVerifiedStatus prev (normalizePhoneNumberHook cur)

/-- Account._isWithinRateLimit; despite its name it returns true when at least
the limit has elapsed since lastSent. -/
def isWithinRateLimit (lastSent limitInMinutes now : Int) : Bool :=
  decide (now - lastSent ≥ limitInMinutes * 60 * 1000)

/-- Account.canSendVerification. -/
def Account.canSendVerification (a : Account) (now : Int) : Bool :=
  match a.lastVerificationSent with
  | none => true
  | some lastSent => isWithinRateLimit lastSent 1 now

/-- Account.canSendEmailVerification. -/
def Account.canSendEmailVerification (a : Account) (now : Int) : Bool :=
  match a.lastEmailVerificationSent with
  | none => true
  | some lastSent => isWithinRateLimit lastSent 1 now

/-- The channel argument of Account.getRemainingCooldown. -/
inductive Channel
  | sms
  | email
deriving DecidableEq, Repr

/-- Account.getRemainingCooldown: remaining whole seconds of the one-minute
cooldown, clamped at zero. -/
def Account.getRemainingCooldown (a : Account) (type : Channel) (now : Int) : Int :=
  let lastSent := match type with
    | .email => a.lastEmailVerificationSent
    | .sms => a.lastVerificationSent
  match lastSent with
  | none => 0
  | some t =>
    let oneMinute : Int := 60 * 1000
    let timePassed := now - t
    let remaining := oneMinute - timePassed
    max 0 (mathCeilDiv remaining 1000)

/-- Account.findByEmail: lower-cased, trimmed lookup over the stored rows. -/
def findByEmail (accounts : StrMap Account) (email : String) : Option Account :=
  if email == "" then none
  else (accounts.map Prod.snd).find? (fun acc =>
    acc.email == some (jsTrim (jsToLower email)))

/-- Account.markSmsAsVerified. -/
def Account.markSmsAsVerified (a : Account) : Account :=
  Account.save a
    { a with smsVerified := true, verificationAttempts := 0, lastVerificationSent := none }

/-- Account.markEmailAsVerified. -/
def Account.markEmailAsVerified (a : Account) : Account :=
  Account.save a { a with
    emailVerified := true
    emailVerificationAttempts := 0
    lastEmailVerificationSent := none }

/-- Account.markAsFullyVerified. -/
def Account.markAsFullyVerified (a : Account) : Account :=
  Account.save a { a with fullyVerified := true, smsVerified := true, emailVerified := true }

/-- Account.updateKycStatus. The valid-status membership check of the source
always passes for the enum; an approved status forces fullyVerified. -/
def Account.updateKycStatus (a : Account) (status : KycStatus) (submittedAt : Option Int) :
    Account :=
  let a1 := { a with kycStatus := status }
  let a2 := match submittedAt with
    | some t => { a1 with kycSubmittedAt := some t }
    | none => a1
  let a3 := if status == KycStatus.approved then { a2 with fullyVerified := true } else a2
  Account.save a a3

/-- Account.updateEmail: format check, duplicate check against other rows, then
the reset of the email verification state. -/
def Account.updateEmail (accounts : StrMap Account) (a : Account) (newEmail : String) :
    Except JsError Account :=
  if newEmail == "" then .error .invalidEmailFormat
  else
    let normalizedEmail := jsTrim (jsToLower newEmail)
    if !emailPatternOk normalizedEmail then .error .invalidEmailFormat
    else if (match findByEmail accounts normalizedEmail with
             | some existingAccount => existingAccount.id != a.id
             | none => false) then .error .emailInUse
    else .ok (Account.save a { a with
      email := some normalizedEmail
      emailVerified := false
      emailVerificationAttempts := 0
      lastEmailVerificationSent := none })

/-- Account.startEmailChangeProcess. -/
def Account.startEmailChangeProcess (accounts : StrMap Account) (a : Account)
    (newEmail : String) : Except JsError Account :=
  if newEmail == "" then .error .invalidEmailFormat
  else
    let normalizedEmail := jsTrim (jsToLower newEmail)
    if a.email == some normalizedEmail then .error .sameAsCurrentEmail
    else if (match findByEmail accounts normalizedEmail with
             | some existingAccount => existingAccount.id != a.id
             | none => false) then .error .emailInUse
    else .ok (Account.save a { a with
      pendingEmail := some normalizedEmail
      emailChangeVerificationStep := .sms_pending })

/-- Account.completeEmailChange: only legal from the email-pending step; swaps
in the pending email in one persisted update. -/
def Account.completeEmailChange (a : Account) : Except JsError Account :=
  if a.emailChangeVerificationStep != .email_pending then .error .emailChangeStateError
  else .ok (Account.save a { a with
    email := a.pendingEmail
    pendingEmail := none
    emailVerified := true
    emailChangeVerificationStep := .none
    emailVerificationAttempts := 0
    lastEmailVerificationSent := none })

/-- The specification invariant on a persisted account: fullyVerified holds iff
both channel flags hold. -/
def verifiedInvariant (a : Account) : Prop :=
  a.fullyVerified = (a.smsVerified && a.emailVerified)

/-- Any save whose mutated fields leave fullyVerified untouched re-establishes
the invariant, because the afterUpdate hook recomputes the derived flag
whenever it changed. -/
theorem save_verifiedInvariant (prev cur : Account)
    (h : cur.fullyVerified = prev.fullyVerified) :
    verifiedInvariant (Account.save prev cur) := by
  unfold Account.save updateFullyVerifiedStatus verifiedInvariant normalizePhoneNumberHook
  cases hw : prev.fullyVerified <;> cases hs : cur.smsVerified <;>
    cases he : cur.emailVerified <;> simp_all

/-- A save that sets all three flags true satisfies the invariant. -/
theorem save_verifiedInvariant_all_true (prev cur : Account)
    (hf : cur.fullyVerified = true) (hs : cur.smsVerified = true)
    (he : cur.emailVerified = true) :
    verifiedInvariant (Account.save prev cur) := by
  unfold Account.save updateFullyVerifiedStatus verifiedInvariant normalizePhoneNumberHook
  cases hw : prev.fullyVerified <;> simp_all

/-! ### DeduplicationMiddleware -/

/-- One active-request entry of the deduplication gate. -/
structure RequestData where
  timestamp : Int
  expiresAt : Int
deriving DecidableEq, Repr

/-- The two Maps of the middleware singleton. -/
structure DedupState where
  activeRequests : StrMap RequestData
  requestCounts : StrMap Nat
deriving DecidableEq, Repr

namespace DeduplicationMiddleware

/-- DeduplicationMiddleware._isRequestExpired. -/
def isRequestExpired (requestData : RequestData) (now : Int) : Bool :=
  now > requestData.expiresAt

/-- DeduplicationMiddleware._incrementRetryCount. -/
def incrementRetryCount (st : DedupState) (key : String) : DedupState :=
  let count := (mapGet st.requestCounts key).getD 0
  { st with requestCounts := mapSet st.requestCounts key (count + 1) }

/-- DeduplicationMiddleware._removeRequest. -/
def removeRequest (st : DedupState) (key : String) : DedupState :=
  { st with
    activeRequests := mapDel st.activeRequests key
    requestCounts := mapDel st.requestCounts key }

/-- DeduplicationMiddleware._isDuplicateRequest: a live entry makes the request
a duplicate (bumping the retry count); an expired entry is removed lazily. -/
def isDuplicateRequest (st : DedupState) (key : String) (now : Int) : Bool × DedupState :=
  match mapGet st.activeRequests key with
  | none => (false, st)
  | some requestData =>
    if isRequestExpired requestData now then (false, removeRequest st key)
    else (true, incrementRetryCount st key)

/-- DeduplicationMiddleware._registerRequest. -/
def registerRequest (st : DedupState) (key : String) (ttl now : Int) : DedupState :=
  { st with activeRequests :=
      mapSet st.activeRequests key { timestamp := now, expiresAt := now + ttl } }

/-- DeduplicationMiddleware._getRetryAfter: remaining whole seconds of the
TTL of the live entry, clamped at zero. -/
def getRetryAfter (st : DedupState) (key : String) (now : Int) : Int :=
  match mapGet st.activeRequests key with
  | none => 0
  | some requestData => max 0 (mathCeilDiv (requestData.expiresAt - now) 1000)

/-- The middleware decision for one incoming request. -/
inductive DedupDecision
  | admitted
  | rejected (retryAfter : Int) (attemptCount : Nat)
deriving DecidableEq, Repr

/-- The body of the handler returned by deduplicate(keyGenerator, options), for
one request at a single instant; the caller picks the ttl (default 60000). -/
def deduplicate (st : DedupState) (key : String) (ttl now : Int) :
    DedupDecision × DedupState :=
  match isDuplicateRequest st key now with
  | (true, st1) =>
    (.rejected (getRetryAfter st1 key now) ((mapGet st1.requestCounts key).getD 0), st1)
  | (false, st1) => (.admitted, registerRequest st1 key ttl now)

/-- The finish, close and error listeners attached by _attachCleanupListener:
an admitted request removes its entry when its response completes. -/
def completeRequest (st : DedupState) (key : String) : DedupState :=
  removeRequest st key

end DeduplicationMiddleware

/-! ### AccountController (refactored variant, AccountController.js lines 506-859) -/

/-- The persistent and in-memory state the controller operations touch. -/
structure ServerState where
  accounts : StrMap Account
  smsCodes : StrMap OTPEntry
  emailCodes : StrMap OTPEntry
deriving DecidableEq, Repr

namespace AccountController

/-- Account.findByPhoneNumber: null guard, normalization, then row lookup. -/
def findByPhoneNumber (accounts : StrMap Account) (phoneNumber : String) : Option Account :=
  if phoneNumber == "" then none
  else
    match normalizePhoneNumber phoneNumber with
    | none => none
    | some normalizedPhone => mapGet accounts normalizedPhone

/-- Account.findByPhoneNumber together with the key the row is stored under,
used to write the updated row back in place. -/
def findByPhoneNumberWithKey (accounts : StrMap Account) (phoneNumber : String) :
    Option (String × Account) :=
  if phoneNumber == "" then none
  else
    match normalizePhoneNumber phoneNumber with
    | none => none
    | some normalizedPhone =>
      match mapGet accounts normalizedPhone with
      | none => none
      | some account => some (normalizedPhone, account)

/-- AccountController._validateRateLimit: only an existing account can be rate
limited; the unreachable null-timestamp fallback mirrors new Date(null). -/
def validateRateLimit (acc? : Option Account) (now : Int) : Except JsError Unit :=
  match acc? with
  | none => .ok ()
  | some account =>
    if account.canSendVerification now then .ok ()
    else
      let timeLeft := 60000 - (now - (account.lastVerificationSent.getD 0))
      .error (.cooldownActive (mathCeilDiv timeLeft 1000))

/-- AccountController.sendVerificationCode; providerCode is the code generated
by the external SMS provider. -/
def sendVerificationCode (s : ServerState) (phoneNumber providerCode : String) (now : Int) :
    ServerState × Except JsError SemaphoreService.SendResult :=
  let normalized? := normalizePhoneNumber phoneNumber
  let acc? := match normalized? with
    | none => none
    | some normalizedPhone => findByPhoneNumber s.accounts normalizedPhone
  match validateRateLimit acc? now with
  | .error e => (s, .error e)
  | .ok _ =>
    match SemaphoreService.sendOTP s.smsCodes (normalized?.getD "") providerCode now with
    | (smsCodes1, .error e) => ({ s with smsCodes := smsCodes1 }, .error e)
    | (smsCodes1, .ok result) =>
      let s1 : ServerState := { s with smsCodes := smsCodes1 }
      match acc?, normalized? with
      | some account, some normalizedPhone =>
        let saved := Account.save account { account with lastVerificationSent := some now }
        ({ s1 with accounts := mapSet s1.accounts normalizedPhone saved }, .ok result)
      | _, _ => (s1, .ok result)

/-- AccountController.verifyCode: the verify-code endpoint consults only the
SMS OTP store and reports whether the status was approved. -/
def verifyCode (s : ServerState) (phoneNumber code : String) (now : Int) :
    ServerState × Except JsError Bool :=
  let normalizedPhone := (normalizePhoneNumber phoneNumber).getD ""
  match SemaphoreService.verifyOTP s.smsCodes normalizedPhone code now with
  | .error e => (s, .error e)
  | .ok outcome =>
    ({ s with smsCodes := outcome.codes }, .ok (outcome.status == .approved))

/-- AccountController.verifyEmail: account lookup and checks, the Brevo OTP
check, then the verified-flag save or the failure bookkeeping; the welcome
email side effect is external and its failures are swallowed. -/
def verifyEmail (s : ServerState) (phoneNumber code : String) (now : Int) :
    ServerState × Except JsError Bool :=
  match findByPhoneNumberWithKey s.accounts phoneNumber with
  | none => (s, .error .accountNotFound)
  | some (key, account) =>
    match account.email with
    | none => (s, .error .noEmailOnAccount)
    | some email =>
      if account.emailVerified then (s, .error .emailAlreadyVerified)
      else if decide (5 ≤ account.emailVerificationAttempts) then
        (s, .error .tooManyEmailAttempts)
      else
        match BrevoService.verifyEmailOTP s.emailCodes email code now with
        | .error e => (s, .error e)
        | .ok outcome =>
          let s1 : ServerState := { s with emailCodes := outcome.codes }
          if outcome.status == .approved then
            let saved := Account.markEmailAsVerified account
            ({ s1 with accounts := mapSet s1.accounts key saved }, .ok true)
          else
            let saved := Account.save account { account with
              emailVerificationAttempts := account.emailVerificationAttempts + 1 }
            let s2 : ServerState := { s1 with accounts := mapSet s1.accounts key saved }
            match outcome.status with
            | .failed => (s2, .error .invalidEmailCode)
            | .expired => (s2, .error .emailCodeExpired)
            | .approved => (s2, .ok false)

/-- AccountController._validateEmailChange: only the same-email comparison. -/
def validateEmailChange (account : Account) (newEmail : String) : Except JsError Unit :=
  if account.email == some newEmail then .error .sameAsCurrentEmail else .ok ()

/-- AccountController.requestEmailChange. -/
def requestEmailChange (s : ServerState) (phoneNumber newEmail : String) :
    ServerState × Except JsError Unit :=
  match findByPhoneNumberWithKey s.accounts phoneNumber with
  | none => (s, .error .accountNotFound)
  | some (key, account) =>
    match validateEmailChange account newEmail with
    | .error e => (s, .error e)
    | .ok _ =>
      let saved := Account.save account { account with
        pendingEmail := some newEmail
        emailChangeVerificationStep := .sms_pending }
      ({ s with accounts := mapSet s.accounts key saved }, .ok ())

/-- AccountController._validateEmailChangeStep. -/
def validateEmailChangeStep (account : Account) (expectedStep : EmailChangeStep) :
    Except JsError Unit :=
  if account.emailChangeVerificationStep != expectedStep then .error .wrongEmailChangeStep
  else .ok ()

/-- AccountController.verifyEmailChangeSms; genEmailCode is the email OTP
generated inside sendEmailOTP for the pending address. As in source, the raw
phone number is used for the SMS OTP lookup. -/
def verifyEmailChangeSms (s : ServerState) (phoneNumber code genEmailCode : String)
    (now : Int) : ServerState × Except JsError Unit :=
  match findByPhoneNumberWithKey s.accounts phoneNumber with
  | none => (s, .error .accountNotFound)
  | some (key, account) =>
    match validateEmailChangeStep account .sms_pending with
    | .error e => (s, .error e)
    | .ok _ =>
      match SemaphoreService.verifyOTP s.smsCodes phoneNumber code now with
      | .error e => (s, .error e)
      | .ok outcome =>
        let s1 : ServerState := { s with smsCodes := outcome.codes }
        if outcome.status != .approved then (s1, .error .invalidSmsCode)
        else
          let a1 := Account.save account { account with
            emailChangeVerificationStep := .email_pending }
          let s2 : ServerState := { s1 with accounts := mapSet s1.accounts key a1 }
          match a1.pendingEmail with
          | none => (s2, .error .validationFailed)
          | some pendingEmail =>
            match BrevoService.sendEmailOTP s2.emailCodes pendingEmail genEmailCode now with
            | (emailCodes1, .error e) => ({ s2 with emailCodes := emailCodes1 }, .error e)
            | (emailCodes1, .ok _) =>
              let s3 : ServerState := { s2 with emailCodes := emailCodes1 }
              let a2 := Account.save a1 { a1 with lastEmailVerificationSent := some now }
              ({ s3 with accounts := mapSet s3.accounts key a2 }, .ok ())

/-- AccountController._isEmailChangeCompleted. -/
def isEmailChangeCompleted (account : Account) : Bool :=
  account.emailChangeVerificationStep == .completed ||
  account.emailChangeVerificationStep == .none

/-- Response of the email-change finalize endpoint. -/
structure EmailChangeOutcome where
  alreadyCompleted : Bool
  newEmail : Option String
deriving DecidableEq, Repr

/-- AccountController.verifyEmailChangeNewEmail (refactored variant): the
returned list records each successive persisted accounts store, one entry per
account.save, so the atomicity of the finalize step is visible. -/
def verifyEmailChangeNewEmail (s : ServerState) (phoneNumber code : String) (now : Int) :
    ServerState × List (StrMap Account) × Except JsError EmailChangeOutcome :=
  match findByPhoneNumberWithKey s.accounts phoneNumber with
  | none => (s, [], .error .accountNotFound)
  | some (key, account) =>
    if isEmailChangeCompleted account then
      (s, [], .ok ⟨true, account.email⟩)
    else
      match validateEmailChangeStep account .email_pending with
      | .error e => (s, [], .error e)
      | .ok _ =>
        match account.pendingEmail with
        | none => (s, [], .error .validationFailed)
        | some pendingEmail =>
          match BrevoService.verifyEmailOTP s.emailCodes pendingEmail code now with
          | .error e => (s, [], .error e)
          | .ok outcome =>
            let s1 : ServerState := { s with emailCodes := outcome.codes }
            if outcome.status != .approved then (s1, [], .error .invalidEmailCode)
            else
              let saved := Account.save account { account with
                email := account.pendingEmail
                pendingEmail := none
                emailVerified := true
                emailChangeVerificationStep := .none
                emailVerificationAttempts := 0 }
              let accounts1 := mapSet s1.accounts key saved
              ({ s1 with accounts := accounts1 }, [accounts1], .ok ⟨false, saved.email⟩)

/-- The historical Twilio variant of verifyEmailChangeNewEmail
(AccountController.js lines 1120-1161): the external Twilio Verify result is
passed in as verification; it persists the account twice, first with the
transient completed step, then with the final state. The returned list records
each successive persisted accounts store. -/
def verifyEmailChangeNewEmailTwilio (accounts : StrMap Account) (phoneNumber : String)
    (verification : OTPStatus) :
    StrMap Account × List (StrMap Account) × Except JsError EmailChangeOutcome :=
  match findByPhoneNumberWithKey accounts phoneNumber with
  | none => (accounts, [], .error .accountNotFound)
  | some (key, account) =>
    if account.emailChangeVerificationStep == .completed ||
       account.emailChangeVerificationStep == .none then
      (accounts, [], .ok ⟨true, account.email⟩)
    else if account.emailChangeVerificationStep != .email_pending then
      (accounts, [], .error .wrongEmailChangeStep)
    else if verification != .approved then
      (accounts, [], .error .invalidEmailCode)
    else
      let a1 := Account.save account { account with
        emailChangeVerificationStep := .completed }
      let accounts1 := mapSet accounts key a1
      let a2 := Account.save a1 { a1 with
        email := a1.pendingEmail
        pendingEmail := none
        emailVerified := true
        emailChangeVerificationStep := .none
        emailVerificationAttempts := 0 }
      let accounts2 := mapSet accounts1 key a2
      (accounts2, [accounts1, accounts2], .ok ⟨false, a2.email⟩)

end AccountController

/-! ### Claim theorems: the OTP store (C2, C3, C4) -/

/-- C2: for both OTP stores, with input passing validation, verify checks
expiry first, then attempt exhaustion, then trimmed-equality, returning
expired when no entry exists, expired plus deletion when past expiry, the
attempts-exhausted failure plus deletion at three or more attempts, approval
plus deletion on a match, and otherwise an invalid-code failure that bumps the
attempt counter in place and retains the entry. -/
theorem C2_verify_check_order :
    (∀ (otpCodes : StrMap OTPEntry) (phoneNumber code : String) (now : Int),
      validSmsVerifyInput phoneNumber code = true →
      (mapGet otpCodes phoneNumber = none →
        SemaphoreService.verifyOTP otpCodes phoneNumber code now =
          .ok ⟨.expired, .noCodeFound, otpCodes⟩) ∧
      (∀ e, mapGet otpCodes phoneNumber = some e →
        (now > e.expiresAt →
          SemaphoreService.verifyOTP otpCodes phoneNumber code now =
            .ok ⟨.expired, .codeExpired, mapDel otpCodes phoneNumber⟩) ∧
        (¬(now > e.expiresAt) → 3 ≤ e.attempts →
          SemaphoreService.verifyOTP otpCodes phoneNumber code now =
            .ok ⟨.failed, .tooManyFailedAttempts, mapDel otpCodes phoneNumber⟩) ∧
        (¬(now > e.expiresAt) → e.attempts < 3 → e.code = jsTrim code →
          SemaphoreService.verifyOTP otpCodes phoneNumber code now =
            .ok ⟨.approved, .verifiedOk, mapDel otpCodes phoneNumber⟩) ∧
        (¬(now > e.expiresAt) → e.attempts < 3 → e.code ≠ jsTrim code →
          SemaphoreService.verifyOTP otpCodes phoneNumber code now =
            .ok ⟨.failed, .invalidCode,
              mapSet otpCodes phoneNumber { e with attempts := e.attempts + 1 }⟩))) ∧
    (∀ (emailCodes : StrMap OTPEntry) (email code : String) (now : Int),
      validEmailVerifyInput email code = true →
      (mapGet emailCodes email = none →
        BrevoService.verifyEmailOTP emailCodes email code now =
          .ok ⟨.expired, .noCodeFound, emailCodes⟩) ∧
      (∀ e, mapGet emailCodes email = some e →
        (now > e.expiresAt →
          BrevoService.verifyEmailOTP emailCodes email code now =
            .ok ⟨.expired, .codeExpired, mapDel emailCodes email⟩) ∧
        (¬(now > e.expiresAt) → 3 ≤ e.attempts →
          BrevoService.verifyEmailOTP emailCodes email code now =
            .ok ⟨.failed, .tooManyFailedAttempts, mapDel emailCodes email⟩) ∧
        (¬(now > e.expiresAt) → e.attempts < 3 → e.code = jsTrim code →
          BrevoService.verifyEmailOTP emailCodes email code now =
            .ok ⟨.approved, .verifiedOk, mapDel emailCodes email⟩) ∧
        (¬(now > e.expiresAt) → e.attempts < 3 → e.code ≠ jsTrim code →
          BrevoService.verifyEmailOTP emailCodes email code now =
            .ok ⟨.failed, .invalidCode,
              mapSet emailCodes email { e with attempts := e.attempts + 1 }⟩))) := by
  constructor
  · intro otpCodes phoneNumber code now hval
    refine ⟨fun hget => ?_, fun e hget => ⟨fun hexp => ?_, fun hnexp hatt => ?_,
      fun hnexp hlt hc => ?_, fun hnexp hlt hne => ?_⟩⟩
    · simp [SemaphoreService.verifyOTP, hval, hget]
    · simp [SemaphoreService.verifyOTP, hval, hget, SemaphoreService.isCodeExpired,
        SemaphoreService.removeOTPCode, hexp]
    · simp [SemaphoreService.verifyOTP, hval, hget, SemaphoreService.isCodeExpired,
        SemaphoreService.removeOTPCode, hnexp, SemaphoreService.hasExceededAttempts, hatt]
    · simp [SemaphoreService.verifyOTP, hval, hget, SemaphoreService.isCodeExpired,
        SemaphoreService.removeOTPCode, hnexp, SemaphoreService.hasExceededAttempts,
        Nat.not_le.mpr hlt, SemaphoreService.isCodeValid, hc]
    · simp [SemaphoreService.verifyOTP, hval, hget, SemaphoreService.isCodeExpired,
        SemaphoreService.incrementAttempts, hnexp, SemaphoreService.hasExceededAttempts,
        Nat.not_le.mpr hlt, SemaphoreService.isCodeValid, hne]
  · intro emailCodes email code now hval
    refine ⟨fun hget => ?_, fun e hget => ⟨fun hexp => ?_, fun hnexp hatt => ?_,
      fun hnexp hlt hc => ?_, fun hnexp hlt hne => ?_⟩⟩
    · simp [BrevoService.verifyEmailOTP, hval, hget]
    · simp [BrevoService.verifyEmailOTP, hval, hget, BrevoService.isCodeExpired,
        BrevoService.removeOTPCode, hexp]
    · simp [BrevoService.verifyEmailOTP, hval, hget, BrevoService.isCodeExpired,
        BrevoService.removeOTPCode, hnexp, BrevoService.hasExceededAttempts, hatt]
    · simp [BrevoService.verifyEmailOTP, hval, hget, BrevoService.isCodeExpired,
        BrevoService.removeOTPCode, hnexp, BrevoService.hasExceededAttempts,
        Nat.not_le.mpr hlt, BrevoService.isCodeValid, hc]
    · simp [BrevoService.verifyEmailOTP, hval, hget, BrevoService.isCodeExpired,
        BrevoService.incrementAttempts, hnexp, BrevoService.hasExceededAttempts,
        Nat.not_le.mpr hlt, BrevoService.isCodeValid, hne]

/-- Witness for C2 at a concrete store: an empty SMS store reports expired and
a live email entry with a matching code is approved and consumed. -/
theorem C2_verify_check_order_witness :
    SemaphoreService.verifyOTP [] "+639171234567" "123456" 0 =
      .ok ⟨.expired, .noCodeFound, []⟩ ∧
    BrevoService.verifyEmailOTP [("a@x.com", ⟨"654321", 300000, 0, 0⟩)] "a@x.com" "654321" 10 =
      .ok ⟨.approved, .verifiedOk, mapDel [("a@x.com", ⟨"654321", 300000, 0, 0⟩)] "a@x.com"⟩ :=
  ⟨(C2_verify_check_order.1 [] "+639171234567" "123456" 0 (by decide)).1 (by decide),
   ((C2_verify_check_order.2 [("a@x.com", ⟨"654321", 300000, 0, 0⟩)] "a@x.com" "654321" 10
      (by decide)).2 ⟨"654321", 300000, 0, 0⟩ (by decide)).2.2.1 (by decide) (by decide)
      (by decide)⟩

/-- C3: from a live entry with a fresh counter, three wrong submissions each
return the invalid-code failure while retaining the entry with the counter
bumped by one, and the fourth call, whatever code it submits, returns the
attempts-exhausted failure and the entry is gone. -/
theorem C3_three_wrong_then_lockout
    (store : StrMap OTPEntry) (recipient w1 w2 w3 w4 : String) (e : OTPEntry) (now : Int)
    (hget : mapGet store recipient = some e)
    (hatt : e.attempts = 0)
    (hlive : ¬(now > e.expiresAt))
    (hv1 : validSmsVerifyInput recipient w1 = true)
    (hv2 : validSmsVerifyInput recipient w2 = true)
    (hv3 : validSmsVerifyInput recipient w3 = true)
    (hv4 : validSmsVerifyInput recipient w4 = true)
    (hw1 : e.code ≠ jsTrim w1) (hw2 : e.code ≠ jsTrim w2) (hw3 : e.code ≠ jsTrim w3) :
    SemaphoreService.verifyOTP store recipient w1 now =
      .ok ⟨.failed, .invalidCode, mapSet store recipient { e with attempts := 1 }⟩ ∧
    mapGet (mapSet store recipient { e with attempts := 1 }) recipient =
      some { e with attempts := 1 } ∧
    SemaphoreService.verifyOTP (mapSet store recipient { e with attempts := 1 })
      recipient w2 now =
      .ok ⟨.failed, .invalidCode,
        mapSet (mapSet store recipient { e with attempts := 1 }) recipient
          { e with attempts := 2 }⟩ ∧
    mapGet (mapSet (mapSet store recipient { e with attempts := 1 }) recipient
      { e with attempts := 2 }) recipient = some { e with attempts := 2 } ∧
    SemaphoreService.verifyOTP
      (mapSet (mapSet store recipient { e with attempts := 1 }) recipient
        { e with attempts := 2 }) recipient w3 now =
      .ok ⟨.failed, .invalidCode,
        mapSet (mapSet (mapSet store recipient { e with attempts := 1 }) recipient
          { e with attempts := 2 }) recipient { e with attempts := 3 }⟩ ∧
    mapGet (mapSet (mapSet (mapSet store recipient { e with attempts := 1 }) recipient
      { e with attempts := 2 }) recipient { e with attempts := 3 }) recipient =
      some { e with attempts := 3 } ∧
    SemaphoreService.verifyOTP
      (mapSet (mapSet (mapSet store recipient { e with attempts := 1 }) recipient
        { e with attempts := 2 }) recipient { e with attempts := 3 }) recipient w4 now =
      .ok ⟨.failed, .tooManyFailedAttempts,
        mapDel (mapSet (mapSet (mapSet store recipient { e with attempts := 1 }) recipient
          { e with attempts := 2 }) recipient { e with attempts := 3 }) recipient⟩ ∧
    mapGet (mapDel (mapSet (mapSet (mapSet store recipient { e with attempts := 1 })
      recipient { e with attempts := 2 }) recipient { e with attempts := 3 }) recipient)
      recipient = none := by
  have h1 := ((C2_verify_check_order.1 store recipient w1 now hv1).2 e hget).2.2.2
    hlive (by omega) hw1
  rw [hatt] at h1
  have hg1 : mapGet (mapSet store recipient { e with attempts := 1 }) recipient =
      some { e with attempts := 1 } := mapGet_set_self _ _ _
  have h2 := ((C2_verify_check_order.1 _ recipient w2 now hv2).2 _ hg1).2.2.2
    (by simpa using hlive) (by simp) (by simpa using hw2)
  simp only [] at h2
  have hg2 : mapGet (mapSet (mapSet store recipient { e with attempts := 1 }) recipient
      { e with attempts := 2 }) recipient = some { e with attempts := 2 } :=
    mapGet_set_self _ _ _
  have h3 := ((C2_verify_check_order.1 _ recipient w3 now hv3).2 _ hg2).2.2.2
    (by simpa using hlive) (by simp) (by simpa using hw3)
  have hg3 : mapGet (mapSet (mapSet (mapSet store recipient { e with attempts := 1 })
      recipient { e with attempts := 2 }) recipient { e with attempts := 3 }) recipient =
      some { e with attempts := 3 } := mapGet_set_self _ _ _
  have h4 := ((C2_verify_check_order.1 _ recipient w4 now hv4).2 _ hg3).2.1
    (by simpa using hlive) (by simp)
  refine ⟨h1, hg1, by simpa using h2, hg2, by simpa using h3, hg3, by simpa using h4,
    mapGet_del_self _ _⟩

/-- Witness for C3 at a concrete store and wrong codes. -/
theorem C3_three_wrong_then_lockout_witness :
    SemaphoreService.verifyOTP [("+639171234567", ⟨"654321", 300000, 0, 0⟩)]
      "+639171234567" "111111" 10 =
      .ok ⟨.failed, .invalidCode,
        mapSet [("+639171234567", ⟨"654321", 300000, 0, 0⟩)] "+639171234567"
          ⟨"654321", 300000, 1, 0⟩⟩ :=
  (C3_three_wrong_then_lockout [("+639171234567", ⟨"654321", 300000, 0, 0⟩)]
    "+639171234567" "111111" "222222" "333333" "654321" ⟨"654321", 300000, 0, 0⟩ 10
    (by decide) rfl (by decide) (by decide) (by decide) (by decide) (by decide)
    (by decide) (by decide) (by decide)).1

/-- C4: a matching code on a live entry is approved exactly once, with the
entry consumed so that an immediate replay reports expired; reissuing a code
for the same recipient overwrites the entry with a fresh counter, after which
the latest code verifies and any other code fails. -/
theorem C4_one_shot_last_write_wins
    (store : StrMap OTPEntry) (recipient c : String) (e : OTPEntry) (now : Int)
    (hget : mapGet store recipient = some e)
    (hlive : ¬(now > e.expiresAt))
    (hatt : e.attempts < 3)
    (hv : validSmsVerifyInput recipient c = true)
    (hc : e.code = jsTrim c) :
    SemaphoreService.verifyOTP store recipient c now =
      .ok ⟨.approved, .verifiedOk, mapDel store recipient⟩ ∧
    SemaphoreService.verifyOTP (mapDel store recipient) recipient c now =
      .ok ⟨.expired, .noCodeFound, mapDel store recipient⟩ ∧
    (∀ newCode now2,
      SemaphoreService.storeOTPCode store recipient newCode now2 =
        mapSet store recipient
          ⟨newCode, now2 + 5 * 60 * 1000, 0, now2⟩ ∧
      mapGet (SemaphoreService.storeOTPCode store recipient newCode now2) recipient =
        some ⟨newCode, now2 + 5 * 60 * 1000, 0, now2⟩) ∧
    (∀ newCode now2 now3, validSmsVerifyInput recipient newCode = true →
      jsTrim newCode = newCode → ¬(now3 > now2 + 5 * 60 * 1000) →
      SemaphoreService.verifyOTP (SemaphoreService.storeOTPCode store recipient newCode now2)
        recipient newCode now3 =
        .ok ⟨.approved, .verifiedOk,
          mapDel (SemaphoreService.storeOTPCode store recipient newCode now2) recipient⟩) ∧
    (∀ newCode oldCode now2 now3, validSmsVerifyInput recipient oldCode = true →
      jsTrim oldCode ≠ newCode → ¬(now3 > now2 + 5 * 60 * 1000) →
      SemaphoreService.verifyOTP (SemaphoreService.storeOTPCode store recipient newCode now2)
        recipient oldCode now3 =
        .ok ⟨.failed, .invalidCode,
          mapSet (SemaphoreService.storeOTPCode store recipient newCode now2) recipient
            ⟨newCode, now2 + 5 * 60 * 1000, 1, now2⟩⟩) := by
  have happroved := ((C2_verify_check_order.1 store recipient c now hv).2 e hget).2.2.1
    hlive hatt hc
  have hreplay := (C2_verify_check_order.1 (mapDel store recipient) recipient c now hv).1
    (mapGet_del_self _ _)
  refine ⟨happroved, hreplay, ?_, ?_, ?_⟩
  · intro newCode now2
    exact ⟨rfl, mapGet_set_self _ _ _⟩
  · intro newCode now2 now3 hvn htrim hexp
    have hgn : mapGet (SemaphoreService.storeOTPCode store recipient newCode now2) recipient =
        some ⟨newCode, now2 + 5 * 60 * 1000, 0, now2⟩ := mapGet_set_self _ _ _
    have := ((C2_verify_check_order.1 _ recipient newCode now3 hvn).2 _ hgn).2.2.1
      (by simpa using hexp) (by simp) (by simpa using htrim.symm)
    simpa using this
  · intro newCode oldCode now2 now3 hvo hne hexp
    have hgn : mapGet (SemaphoreService.storeOTPCode store recipient newCode now2) recipient =
        some ⟨newCode, now2 + 5 * 60 * 1000, 0, now2⟩ := mapGet_set_self _ _ _
    have := ((C2_verify_check_order.1 _ recipient oldCode now3 hvo).2 _ hgn).2.2.2
      (by simpa using hexp) (by simp) (by simpa using fun hx => hne hx.symm)
    simpa using this

/-- Witness for C4: a concrete live entry is approved once and its replay is
expired. -/
theorem C4_one_shot_last_write_wins_witness :
    SemaphoreService.verifyOTP [("+639171234567", ⟨"654321", 300000, 2, 0⟩)]
      "+639171234567" "654321" 10 =
      .ok ⟨.approved, .verifiedOk,
        mapDel [("+639171234567", ⟨"654321", 300000, 2, 0⟩)] "+639171234567"⟩ ∧
    SemaphoreService.verifyOTP
      (mapDel [("+639171234567", ⟨"654321", 300000, 2, 0⟩)] "+639171234567")
      "+639171234567" "654321" 10 =
      .ok ⟨.expired, .noCodeFound,
        mapDel [("+639171234567", ⟨"654321", 300000, 2, 0⟩)] "+639171234567"⟩ :=
  ⟨(C4_one_shot_last_write_wins [("+639171234567", ⟨"654321", 300000, 2, 0⟩)]
      "+639171234567" "654321" ⟨"654321", 300000, 2, 0⟩ 10 (by decide) (by decide)
      (by decide) (by decide) (by decide)).1,
   (C4_one_shot_last_write_wins [("+639171234567", ⟨"654321", 300000, 2, 0⟩)]
      "+639171234567" "654321" ⟨"654321", 300000, 2, 0⟩ 10 (by decide) (by decide)
      (by decide) (by decide) (by decide)).2.1⟩

/-! ### Claim theorems: deduplication gate (C7) and rate limiter (C8) -/

/-- C7: a live entry for the key rejects the request with a nonnegative
retryAfter equal to the remaining whole seconds of the TTL (the mathematical
ceiling of the remaining milliseconds over 1000, clamped at zero) without
re-registering the entry; an absent or time-expired key admits the request and
registers an entry stamped now and expiring at now plus ttl; completion
removes the entry, so the next request with the same key is admitted again. -/
theorem C7_dedup_gate (st : DedupState) (key : String) (ttl now : Int) :
    (∀ e, mapGet st.activeRequests key = some e → ¬(now > e.expiresAt) →
      DeduplicationMiddleware.deduplicate st key ttl now =
        (.rejected (max 0 (mathCeilDiv (e.expiresAt - now) 1000))
          (((mapGet st.requestCounts key).getD 0) + 1),
         DeduplicationMiddleware.incrementRetryCount st key) ∧
      (DeduplicationMiddleware.deduplicate st key ttl now).2.activeRequests =
        st.activeRequests ∧
      0 ≤ max 0 (mathCeilDiv (e.expiresAt - now) 1000) ∧
      max 0 (mathCeilDiv (e.expiresAt - now) 1000) =
        max 0 ⌈((e.expiresAt - now : Int) : ℚ) / 1000⌉) ∧
    (mapGet st.activeRequests key = none →
      DeduplicationMiddleware.deduplicate st key ttl now =
        (.admitted, DeduplicationMiddleware.registerRequest st key ttl now) ∧
      mapGet (DeduplicationMiddleware.registerRequest st key ttl now).activeRequests key =
        some ⟨now, now + ttl⟩) ∧
    (∀ e, mapGet st.activeRequests key = some e → now > e.expiresAt →
      DeduplicationMiddleware.deduplicate st key ttl now =
        (.admitted, DeduplicationMiddleware.registerRequest
          (DeduplicationMiddleware.removeRequest st key) key ttl now) ∧
      mapGet (DeduplicationMiddleware.deduplicate st key ttl now).2.activeRequests key =
        some ⟨now, now + ttl⟩) ∧
    (mapGet (DeduplicationMiddleware.completeRequest st key).activeRequests key = none ∧
     (DeduplicationMiddleware.deduplicate (DeduplicationMiddleware.completeRequest st key)
        key ttl now).1 = .admitted) := by
  have hcomplete : mapGet (DeduplicationMiddleware.completeRequest st key).activeRequests
      key = none := by
    simp [DeduplicationMiddleware.completeRequest, DeduplicationMiddleware.removeRequest,
      mapGet_del_self]
  refine ⟨fun e hget hlive => ?_, fun hget => ?_, fun e hget hexp => ?_, hcomplete, ?_⟩
  · have hact : (DeduplicationMiddleware.incrementRetryCount st key).activeRequests =
        st.activeRequests := rfl
    have hcount : mapGet (DeduplicationMiddleware.incrementRetryCount st key).requestCounts
        key = some (((mapGet st.requestCounts key).getD 0) + 1) := by
      simp [DeduplicationMiddleware.incrementRetryCount, mapGet_set_self]
    have hded : DeduplicationMiddleware.deduplicate st key ttl now =
        (.rejected (max 0 (mathCeilDiv (e.expiresAt - now) 1000))
          (((mapGet st.requestCounts key).getD 0) + 1),
         DeduplicationMiddleware.incrementRetryCount st key) := by
      simp [DeduplicationMiddleware.deduplicate, DeduplicationMiddleware.isDuplicateRequest,
        hget, DeduplicationMiddleware.isRequestExpired, hlive,
        DeduplicationMiddleware.getRetryAfter, hact, hcount]
    refine ⟨hded, by rw [hded]; rfl, by positivity, by rw [mathCeilDiv_eq_ceil]⟩
  · refine ⟨?_, ?_⟩
    · simp [DeduplicationMiddleware.deduplicate, DeduplicationMiddleware.isDuplicateRequest,
        hget]
    · simp [DeduplicationMiddleware.registerRequest, mapGet_set_self]
  · have hded : DeduplicationMiddleware.deduplicate st key ttl now =
        (.admitted, DeduplicationMiddleware.registerRequest
          (DeduplicationMiddleware.removeRequest st key) key ttl now) := by
      simp [DeduplicationMiddleware.deduplicate, DeduplicationMiddleware.isDuplicateRequest,
        hget, DeduplicationMiddleware.isRequestExpired, hexp]
    refine ⟨hded, ?_⟩
    rw [hded]
    simp [DeduplicationMiddleware.registerRequest, mapGet_set_self]
  · simp [DeduplicationMiddleware.deduplicate, DeduplicationMiddleware.isDuplicateRequest,
      hcomplete]

/-- Witness for C7: a concrete singleton gate state rejects a duplicate with
thirty seconds left, and admits again after completion. -/
theorem C7_dedup_gate_witness :
    DeduplicationMiddleware.deduplicate ⟨[("send-sms:+639171234567", ⟨0, 40000⟩)], []⟩
      "send-sms:+639171234567" 60000 10000 =
      (.rejected (max 0 (mathCeilDiv 30000 1000)) 1,
       DeduplicationMiddleware.incrementRetryCount
         ⟨[("send-sms:+639171234567", ⟨0, 40000⟩)], []⟩ "send-sms:+639171234567") ∧
    (DeduplicationMiddleware.deduplicate
      (DeduplicationMiddleware.completeRequest
        ⟨[("send-sms:+639171234567", ⟨0, 40000⟩)], []⟩ "send-sms:+639171234567")
      "send-sms:+639171234567" 60000 50000).1 = .admitted :=
  ⟨((C7_dedup_gate ⟨[("send-sms:+639171234567", ⟨0, 40000⟩)], []⟩ "send-sms:+639171234567"
      60000 10000).1 ⟨0, 40000⟩ (by decide) (by decide)).1,
   (C7_dedup_gate ⟨[("send-sms:+639171234567", ⟨0, 40000⟩)], []⟩ "send-sms:+639171234567"
      60000 50000).2.2.2.2⟩

/-- C8: the per-channel cooldown check returns true exactly when no timestamp
is recorded or at least sixty seconds have elapsed, in particular true for a
null timestamp, false thirty seconds after a send and true sixty-one seconds
after; and the remaining cooldown is zero for a null timestamp and otherwise
the ceiling of the remaining milliseconds over 1000, clamped at zero. -/
theorem C8_rate_limiter (a : Account) (now t : Int) :
    (a.lastVerificationSent = none → Account.canSendVerification a now = true) ∧
    (a.lastVerificationSent = some t →
      (Account.canSendVerification a now = true ↔ 60000 ≤ now - t)) ∧
    (a.lastVerificationSent = some (now - 30000) →
      Account.canSendVerification a now = false) ∧
    (a.lastVerificationSent = some (now - 61000) →
      Account.canSendVerification a now = true) ∧
    (a.lastEmailVerificationSent = none → Account.canSendEmailVerification a now = true) ∧
    (a.lastEmailVerificationSent = some t →
      (Account.canSendEmailVerification a now = true ↔ 60000 ≤ now - t)) ∧
    (a.lastEmailVerificationSent = some (now - 30000) →
      Account.canSendEmailVerification a now = false) ∧
    (a.lastEmailVerificationSent = some (now - 61000) →
      Account.canSendEmailVerification a now = true) ∧
    (a.lastVerificationSent = none → Account.getRemainingCooldown a .sms now = 0) ∧
    (a.lastVerificationSent = some t →
      Account.getRemainingCooldown a .sms now =
        max 0 ⌈((60000 - (now - t) : Int) : ℚ) / 1000⌉) ∧
    (a.lastEmailVerificationSent = none → Account.getRemainingCooldown a .email now = 0) ∧
    (a.lastEmailVerificationSent = some t →
      Account.getRemainingCooldown a .email now =
        max 0 ⌈((60000 - (now - t) : Int) : ℚ) / 1000⌉) := by
  refine ⟨fun h => by simp [Account.canSendVerification, h],
    fun h => ?_, fun h => ?_, fun h => ?_,
    fun h => by simp [Account.canSendEmailVerification, h],
    fun h => ?_, fun h => ?_, fun h => ?_,
    fun h => by simp [Account.getRemainingCooldown, h],
    fun h => ?_,
    fun h => by simp [Account.getRemainingCooldown, h],
    fun h => ?_⟩
  · simp [Account.canSendVerification, h, isWithinRateLimit]
  · simp [Account.canSendVerification, h, isWithinRateLimit]
  · simp [Account.canSendVerification, h, isWithinRateLimit]
  · simp [Account.canSendEmailVerification, h, isWithinRateLimit]
  · simp [Account.canSendEmailVerification, h, isWithinRateLimit]
  · simp [Account.canSendEmailVerification, h, isWithinRateLimit]
  · simp [Account.getRemainingCooldown, h, mathCeilDiv_eq_ceil]
  · simp [Account.getRemainingCooldown, h, mathCeilDiv_eq_ceil]

/-- A concrete account thirty seconds after an SMS send at epoch 70000. -/
def c8Account : Account where
  id := 1
  phoneNumber := "+639171234567"
  pin := "123456"
  email := some "a@x.com"
  pendingEmail := none
  smsVerified := true
  emailVerified := false
  fullyVerified := false
  verificationAttempts := 0
  emailVerificationAttempts := 0
  lastVerificationSent := some 70000
  lastEmailVerificationSent := none
  emailChangeVerificationStep := .none
  kycStatus := .not_submitted
  kycSubmittedAt := none

/-- Witness for C8: thirty seconds after the send the cooldown blocks, after
sixty-one seconds it admits, and a null email timestamp admits. -/
theorem C8_rate_limiter_witness :
    Account.canSendVerification c8Account 100000 = false ∧
    Account.canSendVerification c8Account 131000 = true ∧
    Account.canSendEmailVerification c8Account 100000 = true :=
  ⟨(C8_rate_limiter c8Account 100000 70000).2.2.1 rfl,
   (C8_rate_limiter c8Account 131000 70000).2.2.2.1 rfl,
   (C8_rate_limiter c8Account 100000 70000).2.2.2.2.1 rfl⟩

/-! ### Claim theorems: controller frame properties (C9, C10) -/

/-- The only error sendOTP itself produces is the input-validation failure. -/
theorem sendOTP_error_validation (otpCodes : StrMap OTPEntry)
    (phoneNumber providerCode : String) (now : Int) (e : JsError)
    (h : (SemaphoreService.sendOTP otpCodes phoneNumber providerCode now).2 = .error e) :
    e = .validationFailed := by
  unfold SemaphoreService.sendOTP at h
  split at h <;> simp_all

/-- C9: the verify-code endpoint leaves the persisted accounts and the email
OTP store unchanged for every input; it only consults the SMS OTP store and
reports whether the verification status was approved. -/
theorem C9_verifyCode_accounts_frame (s : ServerState) (phoneNumber code : String)
    (now : Int) :
    (AccountController.verifyCode s phoneNumber code now).1.accounts = s.accounts ∧
    (AccountController.verifyCode s phoneNumber code now).1.emailCodes = s.emailCodes ∧
    ∀ outcome,
      SemaphoreService.verifyOTP s.smsCodes ((normalizePhoneNumber phoneNumber).getD "")
        code now = .ok outcome →
      (AccountController.verifyCode s phoneNumber code now).2 =
        .ok (outcome.status == OTPStatus.approved) := by
  unfold AccountController.verifyCode
  cases h : SemaphoreService.verifyOTP s.smsCodes ((normalizePhoneNumber phoneNumber).getD "")
      code now with
  | error e => simp [h]
  | ok outcome => simp [h]

/-- Witness for C9 at a concrete empty state: the endpoint returns false and
the account store is untouched. -/
theorem C9_verifyCode_accounts_frame_witness :
    (AccountController.verifyCode ⟨[], [], []⟩ "+639171234567" "123456" 0).1.accounts =
      [] ∧
    (AccountController.verifyCode ⟨[], [], []⟩ "+639171234567" "123456" 0).2 =
      .ok false :=
  ⟨(C9_verifyCode_accounts_frame ⟨[], [], []⟩ "+639171234567" "123456" 0).1,
   (C9_verifyCode_accounts_frame ⟨[], [], []⟩ "+639171234567" "123456" 0).2.2
     ⟨.expired, .noCodeFound, []⟩ rfl⟩

/-- C10: when no account row exists for the normalized phone, the
send-verification operation never fails with the cooldown error and never
writes any account state, whatever the prior send history was. -/
theorem C10_send_without_account
    (s : ServerState) (phoneNumber providerCode : String) (now : Int)
    (hnone : ∀ p, normalizePhoneNumber phoneNumber = some p →
      AccountController.findByPhoneNumber s.accounts p = none) :
    (AccountController.sendVerificationCode s phoneNumber providerCode now).1.accounts =
      s.accounts ∧
    ∀ secs, (AccountController.sendVerificationCode s phoneNumber providerCode now).2 ≠
      .error (.cooldownActive secs) := by
  cases hn : normalizePhoneNumber phoneNumber with
  | none =>
    simp only [AccountController.sendVerificationCode, hn, Option.getD_none,
      AccountController.validateRateLimit]
    cases hs : SemaphoreService.sendOTP s.smsCodes "" providerCode now with
    | mk codes1 r =>
      cases r with
      | error e =>
        have he := sendOTP_error_validation s.smsCodes "" providerCode now e (by rw [hs])
        subst he
        simp
      | ok result => simp
  | some p =>
    have hfind := hnone p hn
    simp only [AccountController.sendVerificationCode, hn, hfind, Option.getD_some,
      AccountController.validateRateLimit]
    cases hs : SemaphoreService.sendOTP s.smsCodes p providerCode now with
    | mk codes1 r =>
      cases r with
      | error e =>
        have he := sendOTP_error_validation s.smsCodes p providerCode now e (by rw [hs])
        subst he
        simp
      | ok result => simp

/-- Witness for C10 at a concrete state with no account rows: the request is
admitted past the rate limiter and no account state appears. -/
theorem C10_send_without_account_witness :
    (AccountController.sendVerificationCode ⟨[], [], []⟩ "+639171234567" "654321"
      100000).1.accounts = [] ∧
    ∀ secs, (AccountController.sendVerificationCode ⟨[], [], []⟩ "+639171234567" "654321"
      100000).2 ≠ .error (.cooldownActive secs) :=
  C10_send_without_account ⟨[], [], []⟩ "+639171234567" "654321" 100000
    (fun p hp => by
      simp only [AccountController.findByPhoneNumber]
      split
      · rfl
      · cases hq : normalizePhoneNumber p with
        | none => rfl
        | some q => rfl)

/-! ### Claim theorems: the fullyVerified invariant (C1) -/

/-- A changed binding in a map update either existed before or is the new
value; used to trace invariants through persisted writes. -/
theorem mapSet_inv_cases (accounts : StrMap Account) (key p : String) (saved a : Account)
    (hsaved : verifiedInvariant saved)
    (h : mapGet (mapSet accounts key saved) p = some a) :
    mapGet accounts p = some a ∨ verifiedInvariant a := by
  rcases mapGet_set_cases accounts key p saved a h with ⟨hp, ha⟩ | hold
  · exact Or.inr (ha ▸ hsaved)
  · exact Or.inl hold

/-- markSmsAsVerified re-establishes the invariant on every input. -/
theorem markSmsAsVerified_inv (a : Account) :
    verifiedInvariant (Account.markSmsAsVerified a) :=
  save_verifiedInvariant a _ rfl

/-- markEmailAsVerified re-establishes the invariant on every input. -/
theorem markEmailAsVerified_inv (a : Account) :
    verifiedInvariant (Account.markEmailAsVerified a) :=
  save_verifiedInvariant a _ rfl

/-- markAsFullyVerified sets all three flags, so the invariant holds. -/
theorem markAsFullyVerified_inv (a : Account) :
    verifiedInvariant (Account.markAsFullyVerified a) :=
  save_verifiedInvariant_all_true a _ rfl rfl rfl

/-- A successful updateEmail satisfies the invariant. -/
theorem updateEmail_inv (accounts : StrMap Account) (a : Account) (newEmail : String)
    (a2 : Account) (h : Account.updateEmail accounts a newEmail = .ok a2) :
    verifiedInvariant a2 := by
  simp only [Account.updateEmail] at h
  split at h
  · exact absurd h (by simp)
  · split at h
    · exact absurd h (by simp)
    · split at h
      · exact absurd h (by simp)
      · injection h with h2
        rw [← h2]
        exact save_verifiedInvariant a _ rfl

/-- A successful completeEmailChange satisfies the invariant. -/
theorem completeEmailChange_inv (a : Account) (a2 : Account)
    (h : Account.completeEmailChange a = .ok a2) :
    verifiedInvariant a2 := by
  unfold Account.completeEmailChange at h
  split at h
  · exact absurd h (by simp)
  · injection h with h2
    rw [← h2]
    exact save_verifiedInvariant a _ rfl

/-- updateKycStatus preserves the invariant unless it is asked to approve an
account that is not verified on both channels. -/
theorem updateKycStatus_inv (a : Account) (status : KycStatus) (sub : Option Int)
    (hyp : status = KycStatus.approved → a.smsVerified = true ∧ a.emailVerified = true) :
    verifiedInvariant (Account.updateKycStatus a status sub) := by
  by_cases hst : status = KycStatus.approved
  · obtain ⟨hs, he⟩ := hyp hst
    subst hst
    unfold Account.updateKycStatus
    cases sub <;> exact save_verifiedInvariant_all_true a _ rfl hs he
  · unfold Account.updateKycStatus
    have hne : (status == KycStatus.approved) = false := by
      cases status <;> first | rfl | exact absurd rfl hst
    cases sub <;> simp only [hne, Bool.false_eq_true, if_false] <;>
      exact save_verifiedInvariant a _ rfl

/-- Every account the verify-email endpoint writes satisfies the invariant. -/
theorem verifyEmail_accounts_inv (s : ServerState) (phoneNumber code : String) (now : Int)
    (p : String) (a : Account)
    (h : mapGet (AccountController.verifyEmail s phoneNumber code now).1.accounts p =
      some a) :
    mapGet s.accounts p = some a ∨ verifiedInvariant a := by
  simp only [AccountController.verifyEmail] at h
  repeat' split at h
  all_goals simp only [] at h
  all_goals
    first
    | exact Or.inl h
    | exact mapSet_inv_cases _ _ _ _ _ (markEmailAsVerified_inv _) h
    | (rcases mapGet_set_cases _ _ _ _ _ h with ⟨hp, ha⟩ | hold
       · exact Or.inr (ha ▸ save_verifiedInvariant _ _ rfl)
       · exact Or.inl hold)

/-- Every account the email-change SMS step writes satisfies the invariant. -/
theorem verifyEmailChangeSms_accounts_inv (s : ServerState)
    (phoneNumber code genEmailCode : String) (now : Int) (p : String) (a : Account)
    (h : mapGet (AccountController.verifyEmailChangeSms s phoneNumber code genEmailCode
      now).1.accounts p = some a) :
    mapGet s.accounts p = some a ∨ verifiedInvariant a := by
  simp only [AccountController.verifyEmailChangeSms] at h
  repeat' split at h
  all_goals simp only [] at h
  all_goals
    first
    | exact Or.inl h
    | (rcases mapGet_set_cases _ _ _ _ _ h with ⟨hp, ha⟩ | hold
       · exact Or.inr (ha ▸ save_verifiedInvariant _ _ rfl)
       · exact Or.inl hold)
    | (rcases mapGet_set_cases _ _ _ _ _ h with ⟨hp, ha⟩ | hold
       · exact Or.inr (ha ▸ save_verifiedInvariant _ _ rfl)
       · rcases mapGet_set_cases _ _ _ _ _ hold with ⟨hp2, ha2⟩ | hold2
         · exact Or.inr (ha2 ▸ save_verifiedInvariant _ _ rfl)
         · exact Or.inl hold2)

/-- Every account the email-change finalize step writes satisfies the
invariant. -/
theorem verifyEmailChangeNewEmail_accounts_inv (s : ServerState)
    (phoneNumber code : String) (now : Int) (p : String) (a : Account)
    (h : mapGet (AccountController.verifyEmailChangeNewEmail s phoneNumber code
      now).1.accounts p = some a) :
    mapGet s.accounts p = some a ∨ verifiedInvariant a := by
  simp only [AccountController.verifyEmailChangeNewEmail] at h
  repeat' split at h
  all_goals simp only [] at h
  all_goals
    first
    | exact Or.inl h
    | (rcases mapGet_set_cases _ _ _ _ _ h with ⟨hp, ha⟩ | hold
       · exact Or.inr (ha ▸ save_verifiedInvariant _ _ rfl)
       · exact Or.inl hold)

/-- C1 amended: after markSmsAsVerified, markEmailAsVerified,
markAsFullyVerified, a successful updateEmail or completeEmailChange, and the
controller verify operations, every written account satisfies the
fullyVerified invariant; updateKycStatus also preserves it except that
approving an account not verified on both channels forces fullyVerified true
and breaks the equivalence (see the counterexample). -/
theorem C1_fullyVerified_invariant :
    (∀ a : Account, verifiedInvariant (Account.markSmsAsVerified a)) ∧
    (∀ a : Account, verifiedInvariant (Account.markEmailAsVerified a)) ∧
    (∀ a : Account, verifiedInvariant (Account.markAsFullyVerified a)) ∧
    (∀ (accounts : StrMap Account) (a : Account) (newEmail : String) (a2 : Account),
      Account.updateEmail accounts a newEmail = .ok a2 → verifiedInvariant a2) ∧
    (∀ (a a2 : Account), Account.completeEmailChange a = .ok a2 → verifiedInvariant a2) ∧
    (∀ (a : Account) (status : KycStatus) (sub : Option Int),
      (status = KycStatus.approved → a.smsVerified = true ∧ a.emailVerified = true) →
      verifiedInvariant (Account.updateKycStatus a status sub)) ∧
    (∀ (s : ServerState) (phoneNumber code : String) (now : Int) (p : String) (a : Account),
      mapGet (AccountController.verifyEmail s phoneNumber code now).1.accounts p = some a →
      mapGet s.accounts p = some a ∨ verifiedInvariant a) ∧
    (∀ (s : ServerState) (phoneNumber code genEmailCode : String) (now : Int) (p : String)
      (a : Account),
      mapGet (AccountController.verifyEmailChangeSms s phoneNumber code genEmailCode
        now).1.accounts p = some a →
      mapGet s.accounts p = some a ∨ verifiedInvariant a) ∧
    (∀ (s : ServerState) (phoneNumber code : String) (now : Int) (p : String) (a : Account),
      mapGet (AccountController.verifyEmailChangeNewEmail s phoneNumber code
        now).1.accounts p = some a →
      mapGet s.accounts p = some a ∨ verifiedInvariant a) ∧
    (∀ (s : ServerState) (phoneNumber code : String) (now : Int),
      (AccountController.verifyCode s phoneNumber code now).1.accounts = s.accounts) :=
  ⟨markSmsAsVerified_inv, markEmailAsVerified_inv, markAsFullyVerified_inv,
   updateEmail_inv, completeEmailChange_inv, updateKycStatus_inv,
   verifyEmail_accounts_inv, verifyEmailChangeSms_accounts_inv,
   verifyEmailChangeNewEmail_accounts_inv,
   fun s phoneNumber code now => by
     unfold AccountController.verifyCode
     cases h : SemaphoreService.verifyOTP s.smsCodes ((normalizePhoneNumber
       phoneNumber).getD "") code now <;> simp [h]⟩

/-- An unverified account whose KYC submission gets approved. -/
def c1Account : Account where
  id := 7
  phoneNumber := "+639171234567"
  pin := "123456"
  email := some "a@x.com"
  pendingEmail := none
  smsVerified := false
  emailVerified := false
  fullyVerified := false
  verificationAttempts := 0
  emailVerificationAttempts := 0
  lastVerificationSent := none
  lastEmailVerificationSent := none
  emailChangeVerificationStep := .none
  kycStatus := .not_submitted
  kycSubmittedAt := none

/-- C1 counterexample: updateKycStatus with the approved status persists
fullyVerified = true on an account with both channel flags false, so the
claimed equivalence fails after this state-mutating operation. -/
theorem C1_fullyVerified_invariant_counterexample :
    (Account.updateKycStatus c1Account KycStatus.approved none).fullyVerified = true ∧
    (Account.updateKycStatus c1Account KycStatus.approved none).smsVerified = false ∧
    (Account.updateKycStatus c1Account KycStatus.approved none).emailVerified = false ∧
    ¬ ((Account.updateKycStatus c1Account KycStatus.approved none).fullyVerified =
       ((Account.updateKycStatus c1Account KycStatus.approved none).smsVerified &&
        (Account.updateKycStatus c1Account KycStatus.approved none).emailVerified)) := by
  refine ⟨by decide, by decide, by decide, by decide⟩

/-- Witness for C1: the hypothesis-bearing conjuncts applied at concrete
inputs. -/
theorem C1_fullyVerified_invariant_witness :
    verifiedInvariant (Account.updateKycStatus c8Account KycStatus.rejected none) ∧
    verifiedInvariant (Account.markSmsAsVerified c1Account) :=
  ⟨C1_fullyVerified_invariant.2.2.2.2.2.1 c8Account KycStatus.rejected none
     (fun h => by simp at h),
   C1_fullyVerified_invariant.1 c1Account⟩

/-! ### Claim theorems: requestEmailChange (C6) -/

/-- Field projections of a save: the hooks only touch phoneNumber and
fullyVerified. -/
theorem save_fields (prev cur : Account) :
    (Account.save prev cur).id = cur.id ∧
    (Account.save prev cur).email = cur.email ∧
    (Account.save prev cur).pendingEmail = cur.pendingEmail ∧
    (Account.save prev cur).smsVerified = cur.smsVerified ∧
    (Account.save prev cur).emailVerified = cur.emailVerified ∧
    (Account.save prev cur).emailChangeVerificationStep = cur.emailChangeVerificationStep ∧
    (Account.save prev cur).emailVerificationAttempts = cur.emailVerificationAttempts ∧
    (Account.save prev cur).lastEmailVerificationSent = cur.lastEmailVerificationSent := by
  unfold Account.save updateFullyVerifiedStatus normalizePhoneNumberHook
  cases hw : prev.fullyVerified <;> cases hs : cur.smsVerified <;>
    cases he : cur.emailVerified <;> simp_all

/-- A save whose mutated fields leave the three verification flags untouched
keeps fullyVerified, provided the invariant held before the save. -/
theorem save_fullyVerified_of_inv (prev cur : Account)
    (h : cur.fullyVerified = prev.fullyVerified)
    (hs : cur.smsVerified = prev.smsVerified)
    (he : cur.emailVerified = prev.emailVerified)
    (hinv : prev.fullyVerified = (prev.smsVerified && prev.emailVerified)) :
    (Account.save prev cur).fullyVerified = prev.fullyVerified := by
  unfold Account.save updateFullyVerifiedStatus normalizePhoneNumberHook
  cases hw : prev.fullyVerified <;> cases hsv : prev.smsVerified <;>
    cases hev : prev.emailVerified <;> simp_all

/-- C6 amended: requestEmailChange rejects exactly when the submitted address
equals the current one; it checks neither the email-change step (any step
admits and is overwritten to sms-pending) nor whether the address is bound to
another account, and on success it writes only pendingEmail and the step,
leaving email, emailVerified, smsVerified and fullyVerified unchanged. -/
theorem C6_requestEmailChange
    (s : ServerState) (phoneNumber newEmail key : String) (account : Account)
    (hfind : AccountController.findByPhoneNumberWithKey s.accounts phoneNumber =
      some (key, account))
    (hinv : account.fullyVerified = (account.smsVerified && account.emailVerified)) :
    (account.email = some newEmail →
      AccountController.requestEmailChange s phoneNumber newEmail =
        (s, .error .sameAsCurrentEmail)) ∧
    (account.email ≠ some newEmail →
      ∃ saved,
        AccountController.requestEmailChange s phoneNumber newEmail =
          ({ s with accounts := mapSet s.accounts key saved }, .ok ()) ∧
        saved.pendingEmail = some newEmail ∧
        saved.emailChangeVerificationStep = .sms_pending ∧
        saved.email = account.email ∧
        saved.emailVerified = account.emailVerified ∧
        saved.smsVerified = account.smsVerified ∧
        saved.fullyVerified = account.fullyVerified) := by
  constructor
  · intro hsame
    have hbeq : (account.email == some newEmail) = true := by
      rw [hsame]
      exact beq_self_eq_true _
    simp [AccountController.requestEmailChange, hfind,
      AccountController.validateEmailChange, hbeq]
  · intro hne
    have hbeq : (account.email == some newEmail) = false := beq_eq_false_iff_ne.mpr hne
    refine ⟨Account.save account { account with
      pendingEmail := some newEmail
      emailChangeVerificationStep := .sms_pending }, ?_, ?_, ?_, ?_, ?_, ?_, ?_⟩
    · simp [AccountController.requestEmailChange, hfind,
        AccountController.validateEmailChange, hbeq]
    · exact (save_fields account _).2.2.1
    · exact (save_fields account _).2.2.2.2.2.1
    · exact (save_fields account _).2.1
    · exact (save_fields account _).2.2.2.2.1
    · exact (save_fields account _).2.2.2.1
    · exact save_fullyVerified_of_inv account _ rfl rfl rfl hinv

/-- An account in the middle of an email change (step email-pending). -/
def c6Account : Account where
  id := 2
  phoneNumber := "+639171234567"
  pin := "123456"
  email := some "a@x.com"
  pendingEmail := some "b@x.com"
  smsVerified := true
  emailVerified := true
  fullyVerified := true
  verificationAttempts := 0
  emailVerificationAttempts := 0
  lastVerificationSent := none
  lastEmailVerificationSent := none
  emailChangeVerificationStep := .email_pending
  kycStatus := .not_submitted
  kycSubmittedAt := none

/-- Another account that already owns the address c@x.com. -/
def c6OtherAccount : Account where
  id := 3
  phoneNumber := "+639181234567"
  pin := "654321"
  email := some "c@x.com"
  pendingEmail := none
  smsVerified := true
  emailVerified := true
  fullyVerified := true
  verificationAttempts := 0
  emailVerificationAttempts := 0
  lastVerificationSent := none
  lastEmailVerificationSent := none
  emailChangeVerificationStep := .none
  kycStatus := .not_submitted
  kycSubmittedAt := none

/-- The two-account store used by the C6 counterexample. -/
def c6State : ServerState :=
  ⟨[("+639171234567", c6Account), ("+639181234567", c6OtherAccount)], [], []⟩

/-- C6 counterexample: the request succeeds although the step is email-pending
rather than none, and although the requested address is already bound to a
different account, refuting both preconditions the claim states. -/
theorem C6_requestEmailChange_counterexample :
    c6Account.emailChangeVerificationStep = EmailChangeStep.email_pending ∧
    c6OtherAccount.email = some "c@x.com" ∧
    c6OtherAccount.id ≠ c6Account.id ∧
    (AccountController.requestEmailChange c6State "+639171234567" "c@x.com").2 =
      .ok () :=
  ⟨rfl, rfl, by decide, rfl⟩

/-- Witness for C6: on the concrete store the same-email request is rejected
and a fresh address is accepted with only the two fields written. -/
theorem C6_requestEmailChange_witness :
    AccountController.requestEmailChange c6State "+639171234567" "a@x.com" =
      (c6State, .error .sameAsCurrentEmail) ∧
    ∃ saved,
      AccountController.requestEmailChange c6State "+639171234567" "d@x.com" =
        ({ c6State with accounts := mapSet c6State.accounts "+639171234567" saved },
          .ok ()) ∧
      saved.pendingEmail = some "d@x.com" ∧
      saved.emailChangeVerificationStep = .sms_pending ∧
      saved.email = c6Account.email ∧
      saved.emailVerified = c6Account.emailVerified ∧
      saved.smsVerified = c6Account.smsVerified ∧
      saved.fullyVerified = c6Account.fullyVerified :=
  ⟨(C6_requestEmailChange c6State "+639171234567" "a@x.com" "+639171234567" c6Account
      rfl rfl).1 rfl,
   (C6_requestEmailChange c6State "+639171234567" "d@x.com" "+639171234567" c6Account
      rfl rfl).2 (by decide)⟩

/-! ### Claim theorems: email-change finalize (C5) -/

/-- The account mid email change used for the C5 evaluation. -/
def c5Account : Account where
  id := 4
  phoneNumber := "+639171234567"
  pin := "123456"
  email := some "old@x.com"
  pendingEmail := some "new@x.com"
  smsVerified := true
  emailVerified := true
  fullyVerified := true
  verificationAttempts := 0
  emailVerificationAttempts := 0
  lastVerificationSent := none
  lastEmailVerificationSent := none
  emailChangeVerificationStep := .email_pending
  kycStatus := .not_submitted
  kycSubmittedAt := none

/-- An account whose email change already finished (transient completed
step). -/
def c5DoneAccount : Account where
  id := 5
  phoneNumber := "+639181234567"
  pin := "654321"
  email := some "done@x.com"
  pendingEmail := none
  smsVerified := true
  emailVerified := true
  fullyVerified := true
  verificationAttempts := 0
  emailVerificationAttempts := 0
  lastVerificationSent := none
  lastEmailVerificationSent := none
  emailChangeVerificationStep := .completed
  kycStatus := .not_submitted
  kycSubmittedAt := none

/-- The accounts store used for the C5 evaluation. -/
def c5Accounts : StrMap Account :=
  [("+639171234567", c5Account), ("+639181234567", c5DoneAccount)]

/-- The server state used for the C5 evaluation: one pending email change and
a live email OTP for the pending address. -/
def c5State : ServerState :=
  ⟨c5Accounts, [], [("new@x.com", ⟨"654321", 300000, 0, 0⟩)]⟩

/-- C5: the refactored finalize is idempotent from the completed or none steps
without touching state, and on approval performs exactly one persisted update
whose row carries the final fields (step none, never completed); the
historical Twilio variant instead persists an intermediate completed step
before the final write, as its persisted-store trace at the failing input
shows. -/
theorem C5_finalize_email_change :
    (∀ (s : ServerState) (phoneNumber code key : String) (account : Account) (now : Int),
      AccountController.findByPhoneNumberWithKey s.accounts phoneNumber =
        some (key, account) →
      AccountController.isEmailChangeCompleted account = true →
      AccountController.verifyEmailChangeNewEmail s phoneNumber code now =
        (s, [], .ok ⟨true, account.email⟩)) ∧
    (∀ (s : ServerState) (phoneNumber code key pendingEmail : String) (account : Account)
      (now : Int) (outcome : VerifyOutcome),
      AccountController.findByPhoneNumberWithKey s.accounts phoneNumber =
        some (key, account) →
      account.emailChangeVerificationStep = .email_pending →
      account.pendingEmail = some pendingEmail →
      BrevoService.verifyEmailOTP s.emailCodes pendingEmail code now = .ok outcome →
      outcome.status = .approved →
      ∃ saved,
        AccountController.verifyEmailChangeNewEmail s phoneNumber code now =
          ({ s with
             emailCodes := outcome.codes
             accounts := mapSet s.accounts key saved },
           [mapSet s.accounts key saved], .ok ⟨false, saved.email⟩) ∧
        saved.email = some pendingEmail ∧
        saved.pendingEmail = none ∧
        saved.emailVerified = true ∧
        saved.emailChangeVerificationStep = .none ∧
        saved.emailVerificationAttempts = 0) ∧
    ((AccountController.verifyEmailChangeNewEmailTwilio c5Accounts "+639171234567"
        OTPStatus.approved).2.1.map
      (fun m => (mapGet m "+639171234567").map Account.emailChangeVerificationStep)) =
      [some EmailChangeStep.completed, some EmailChangeStep.none] := by
  refine ⟨?_, ?_, by decide⟩
  · intro s phoneNumber code key account now hfind hdone
    simp [AccountController.verifyEmailChangeNewEmail, hfind, hdone]
  · intro s phoneNumber code key pendingEmail account now outcome hfind hstep hpend hotp hst
    have hnc : AccountController.isEmailChangeCompleted account = false := by
      simp [AccountController.isEmailChangeCompleted, hstep]
    have hvs : (account.emailChangeVerificationStep != EmailChangeStep.email_pending) =
        false := by simp [hstep]
    refine ⟨Account.save account { account with
      email := account.pendingEmail
      pendingEmail := none
      emailVerified := true
      emailChangeVerificationStep := .none
      emailVerificationAttempts := 0 }, ?_, ?_, ?_, ?_, ?_, ?_⟩
    · simp [AccountController.verifyEmailChangeNewEmail, hfind, hnc,
        AccountController.validateEmailChangeStep, hvs, hpend, hotp, hst]
    · exact ((save_fields account _).2.1).trans hpend
    · exact (save_fields account _).2.2.1
    · exact (save_fields account _).2.2.2.2.1
    · exact (save_fields account _).2.2.2.2.2.1
    · exact (save_fields account _).2.2.2.2.2.2.1

/-- Witness for C5: the concrete finalize on the done account is an untouched
idempotent success, and on the pending account it is a single persisted update
with the final fields. -/
theorem C5_finalize_email_change_witness :
    AccountController.verifyEmailChangeNewEmail c5State "+639181234567" "654321" 10 =
      (c5State, [], .ok ⟨true, c5DoneAccount.email⟩) ∧
    ∃ saved,
      AccountController.verifyEmailChangeNewEmail c5State "+639171234567" "654321" 10 =
        ({ c5State with
           emailCodes := []
           accounts := mapSet c5State.accounts "+639171234567" saved },
         [mapSet c5State.accounts "+639171234567" saved], .ok ⟨false, saved.email⟩) ∧
      saved.email = some "new@x.com" ∧
      saved.pendingEmail = none ∧
      saved.emailVerified = true ∧
      saved.emailChangeVerificationStep = .none ∧
      saved.emailVerificationAttempts = 0 :=
  ⟨C5_finalize_email_change.1 c5State "+639181234567" "654321" "+639181234567"
     c5DoneAccount 10 rfl rfl,
   C5_finalize_email_change.2.1 c5State "+639171234567" "654321" "+639171234567"
     "new@x.com" c5Account 10 ⟨.approved, .verifiedOk, []⟩ rfl rfl rfl rfl rfl⟩

end Kachingko
